import Mathlib

/-!
Shallow embedding of the gnss-rtk SPP solver core
(src/candidate.rs, src/solver.rs).

Modelling conventions:
* `f64` values are embedded as exact rationals `ℚ` wherever the code only
  adds, subtracts, multiplies, divides and compares them; the observation
  model rows, which take a real square root, are embedded over `ℝ`.
* `hifitime::Epoch` is a pair (timescale tag, seconds count in that
  timescale): `Epoch.from_duration(d, ts)` keeps the timescale, and
  `t - e` for two epochs of one timescale is the difference of the
  second counts.  `hifitime::Duration` is a rational number of seconds.
* Rust panics (`assert!`, index-out-of-bounds, integer underflow,
  `Option::unwrap` on `None`) are embedded as a dedicated `panic`
  outcome / `Option.none`, distinct from the typed `Err` channel.
* External collaborators that live outside the two source files
  (orbit interpolator, eclipse-state provider, UNB3 zenith components,
  slant tropospheric mapping, the least-squares kernel of
  `PVTSolution::new`) are taken as explicit function parameters, exactly
  as the interpolator already is in the source.
-/

set_option autoImplicit false

namespace GnssRtk

/-- Speed of light in vacuum, m/s (nyx_space::cosmic::SPEED_OF_LIGHT). -/
def SPEED_OF_LIGHT : ℚ := 299792458

/-- Epoch: a timescale tag together with the count of seconds in that
timescale (hifitime::Epoch, restricted to what candidate.rs uses). -/
structure Epoch where
  ts : Nat
  sec : ℚ
  deriving DecidableEq, Repr

/-- Duration in seconds (hifitime::Duration). -/
abbrev Duration := ℚ

/-- 3D vector of rationals (crate::Vector3D with exact components). -/
abbrev Vector3D := ℚ × ℚ × ℚ

/-- Pseudo range observation on a specific carrier (candidate.rs).
value in meters, frequency in Hz. -/
structure PseudoRange where
  value : ℚ
  frequency : ℚ
  deriving DecidableEq, Repr

/-- Interpolated SV state (solver.rs InterpolationResult). -/
structure InterpolationResult where
  sky_pos : Vector3D
  elevation : ℚ
  azimuth : ℚ
  deriving DecidableEq, Repr

/-- Position solving candidate (candidate.rs Candidate). `sv` is the
satellite identity. -/
structure Candidate where
  sv : Nat
  t : Epoch
  state : Option InterpolationResult
  tgd : Option Duration
  clock_state : Vector3D
  clock_corr : Duration
  snr : Option ℚ
  pseudo_range : List PseudoRange
  deriving DecidableEq, Repr

/-- Solver error taxonomy (solver.rs Error). -/
inductive SolverError where
  | NotEnoughInputCandidates (solution : Nat)
  | NotEnoughFittingCandidates
  | MatrixInversionError
  | UndefinedAprioriPosition
  | NeedsAtLeastOnePseudoRange
  | MissingIonosphericDelayValue
  deriving DecidableEq, Repr

/-- Solving mode (solver.rs Mode); SPP is the only variant. -/
inductive Mode where
  | SPP
  deriving DecidableEq, Repr

/-- Requested solution type.  Modelled from the spec: solutions.rs is not
in src/; the spec distinguishes a time-only solution from a full fix and
solver.rs matches `TimeOnly` against a catch-all other arm. -/
inductive PVTSolutionType where
  | TimeOnly
  | PositionVelocityTime
  deriving DecidableEq, Repr

/-- Encode a PVTSolutionType as the payload of NotEnoughInputCandidates. -/
def PVTSolutionType.code : PVTSolutionType → Nat
  | .TimeOnly => 0
  | .PositionVelocityTime => 1

/-- Zenith tropospheric components (tropo.rs TropoComponents, fields as
used by solver.rs; Default is zero). -/
structure TropoComponents where
  zwd : ℚ
  zdd : ℚ
  deriving DecidableEq, Repr

/-- Modeling flags of the configuration, as read by the two source
files (cfg.rs is not in src/; the fields are exactly those consumed). -/
structure Modeling where
  sv_clock_bias : Bool
  sv_total_group_delay : Bool
  tropo_delay : Bool
  iono_delay : Bool
  earth_rotation : Bool
  relativistic_clock_corr : Bool
  deriving DecidableEq, Repr

/-- Per-frequency internal (cable) delay entry, frequency in Hz and
delay in seconds (cfg.rs, as consumed by solver.rs). -/
structure InternalDelay where
  frequency : ℚ
  delay : ℚ
  deriving DecidableEq, Repr

/-- Configuration subset consumed by the two source files. -/
structure Config where
  modeling : Modeling
  interp_order : Nat
  min_sv_elev : Option ℚ
  min_sv_sunlight_rate : Option ℚ
  fixed_altitude : Option ℚ
  externalref_delay : Option ℚ
  int_delay : List InternalDelay
  deriving DecidableEq, Repr

/-- Apriori position: ECEF (m) and geodetic (lat ddeg, lon ddeg,
altitude above sea m). -/
structure AprioriPosition where
  ecef : Vector3D
  geodetic : Vector3D
  deriving DecidableEq, Repr

/-- Outcome of Candidate::transmission_time: the Rust function returns
Result<Epoch, Error> but may also panic on its physical-plausibility
assertions; `panic` embeds that abort. -/
inductive TxOutcome where
  | panic
  | err (e : SolverError)
  | ok (e : Epoch)
  deriving DecidableEq, Repr

namespace Candidate

/-- Candidate::new (candidate.rs): rejects an empty pseudorange list,
otherwise stores the fields with `tgd = None` and `state = None`. -/
def new (sv : Nat) (t : Epoch) (clock_state : Vector3D)
    (clock_corr : Duration) (snr : Option ℚ)
    (pseudo_range : List PseudoRange) : Except SolverError Candidate :=
  if pseudo_range.length = 0 then
    .error .NeedsAtLeastOnePseudoRange
  else
    .ok { sv, t, clock_state, clock_corr, snr, pseudo_range,
          tgd := none, state := none }

/-- Candidate::pseudo_range (candidate.rs): `iter().reduce(|k, _| k)`
keeps the first element; `unwrap` panics (here: `none`) on an empty
list. -/
def pseudoRangeFirst (c : Candidate) : Option PseudoRange :=
  c.pseudo_range.head?

/-- Candidate::transmission_time (candidate.rs): light-time back-solved
transmission epoch with optional clock-bias and group-delay corrections,
followed by the two `assert!` physical-plausibility checks, embedded as
the `panic` outcome.  The typed error channel exists in the return type
but the function never constructs it. -/
def transmission_time (c : Candidate) (cfg : Config) : TxOutcome :=
  let t := c.t
  let ts := c.t.ts
  let seconds_ts := t.sec
  match c.pseudoRangeFirst with
  | none => .panic
  | some pr =>
    let dt_tx := seconds_ts - pr.value / SPEED_OF_LIGHT
    let e_tx0 : Epoch := ⟨ts, dt_tx⟩
    let e_tx1 : Epoch := if cfg.modeling.sv_clock_bias
      then ⟨e_tx0.ts, e_tx0.sec - c.clock_corr⟩ else e_tx0
    let e_tx2 : Epoch := if cfg.modeling.sv_total_group_delay then
        match c.tgd with
        | some tgd => ⟨e_tx1.ts, e_tx1.sec - tgd⟩
        | none => e_tx1
      else e_tx1
    let dt := t.sec - e_tx2.sec
    if 0 < dt ∧ dt < 1 then .ok e_tx2 else .panic

end Candidate

/-- Elapsed time between the sampling epoch and the transmission epoch
computed by Candidate::transmission_time, written directly: light time
of the selected pseudorange plus the enabled clock-bias and group-delay
corrections (a missing tgd contributes 0). -/
def txDt (c : Candidate) (cfg : Config) (pr : PseudoRange) : ℚ :=
  pr.value / SPEED_OF_LIGHT
    + (if cfg.modeling.sv_clock_bias then c.clock_corr else 0)
    + (if cfg.modeling.sv_total_group_delay then c.tgd.getD 0 else 0)

/-- Eclipse state returned by the external astrodynamics provider
(nyx_space EclipseState, as matched in solver.rs). -/
inductive EclipseState where
  | Umbra
  | Visibilis
  | Penumbra (r : ℚ)
  deriving DecidableEq, Repr

/-- Per-satellite tropospheric delay classification (solutions.rs,
constructors as used by solver.rs: measured/modeled; `absent` is the
Default). -/
inductive PVTSVTimeDelay where
  | absent
  | measured (d : ℚ)
  | modeled (d : ℚ)
  deriving DecidableEq, Repr

/-- Per-satellite auxiliary solution data (solutions.rs PVTSVData, field
as used by solver.rs). -/
structure PVTSVData where
  tropo : PVTSVTimeDelay
  deriving DecidableEq, Repr

/-- Modelled from the spec: PVTSolution (solutions.rs is not in src/).
Fields are those the spec lists and solver.rs mutates: position vector,
velocity vector, clock bias, the two DOP scalars, per-satellite data. -/
structure PVTSolution where
  p : ℝ × ℝ × ℝ
  v : ℝ × ℝ × ℝ
  dt : ℝ
  hdop : ℝ
  vdop : ℝ
  sv_data : List (Nat × PVTSVData)

/-- Outcome of Solver::resolve: the typed error channel of the source,
plus a `panic` outcome embedding Rust aborts reachable inside it. -/
inductive RunResult where
  | panic
  | err (e : SolverError)
  | ok (t : Epoch) (sol : PVTSolution)

namespace Solver

/-- Solver::elect_candidates (solver.rs): clones the pool and keeps the
mode-compliant candidates; in SPP every candidate is compliant. -/
def elect_candidates (t : Epoch) (pool : List Candidate) (mode : Mode)
    (cfg : Config) : List Candidate :=
  pool.filterMap fun c =>
    let mode_compliant := match mode with | .SPP => true
    if mode_compliant then some c else none

/-- Interpolation stage of Solver::resolve (the filter_map over the
elected pool): back-solve the transmission time — a panic there aborts
the whole call, while a typed error is turned into a drop by `.ok()?` —
then query the interpolator and attach the state on success, dropping
the candidate on interpolation failure. -/
def interpolationStage (interp : Epoch → Nat → Nat → Option InterpolationResult)
    (cfg : Config) : List Candidate → Option (List Candidate)
  | [] => some []
  | c :: rest =>
    match c.transmission_time cfg with
    | .panic => none
    | .err _ => interpolationStage interp cfg rest
    | .ok t_tx =>
      match interp t_tx c.sv cfg.interp_order with
      | some interpolated =>
        match interpolationStage interp cfg rest with
        | none => none
        | some rest2 => some ({ c with state := some interpolated } :: rest2)
      | none => interpolationStage interp cfg rest

/-- Vec::swap_remove(i): replace element i with the last element and
pop the last; callers guard i against the current length. -/
def swapRemove {α : Type} (l : List α) (i : Nat) : List α :=
  match l.getLast? with
  | none => l
  | some last => (l.set i last).dropLast

/-- Body of the elevation-filter loop of Solver::resolve, iterating the
pre-computed index range: `pool[idx]` out of the current bounds is a
panic (`none`); a candidate whose state has elevation below the mask is
removed with swap_remove. -/
def elevationPass (min_elev : ℚ) :
    List Candidate → List Nat → Option (List Candidate)
  | pool, [] => some pool
  | pool, idx :: rest =>
    if h : idx < pool.length then
      match (pool.get ⟨idx, h⟩).state with
      | some state =>
        if state.elevation < min_elev then
          elevationPass min_elev (swapRemove pool idx) rest
        else
          elevationPass min_elev pool rest
      | none => elevationPass min_elev pool rest
    else
      none

/-- Elevation filter of Solver::resolve: `for idx in 0..pool.len() - 1`
evaluates the range bound once; on an empty pool the unsigned
subtraction underflows (debug) or the first access is out of bounds
(release) — a panic either way, embedded as `none`. -/
def elevationFilter (min_elev : ℚ) (pool : List Candidate) :
    Option (List Candidate) :=
  if pool.length = 0 then none
  else elevationPass min_elev pool (List.range (pool.length - 1))

/-- Body of the eclipse-filter loop of Solver::resolve: `pool[idx]` out
of bounds or `state.unwrap()` on None is a panic; the eclipse state of
the sky position (converted to km) decides removal: Umbra always,
Penumbra when the rate is below the configured minimum. -/
def eclipsePass (eclipse : Vector3D → Epoch → EclipseState) (min_rate : ℚ) :
    List Candidate → List Nat → Option (List Candidate)
  | pool, [] => some pool
  | pool, idx :: rest =>
    if h : idx < pool.length then
      match (pool.get ⟨idx, h⟩).state with
      | none => none
      | some state =>
        let pos_km : Vector3D :=
          (state.sky_pos.1 / 1000, state.sky_pos.2.1 / 1000,
            state.sky_pos.2.2 / 1000)
        let eclipsed := match eclipse pos_km (pool.get ⟨idx, h⟩).t with
          | .Umbra => true
          | .Visibilis => false
          | .Penumbra r => decide (r < min_rate)
        if eclipsed then
          eclipsePass eclipse min_rate (swapRemove pool idx) rest
        else
          eclipsePass eclipse min_rate pool rest
    else
      none

/-- Eclipse filter of Solver::resolve, with the same
`0..pool.len() - 1` range bound and empty-pool panic as the elevation
filter. -/
def eclipseFilter (eclipse : Vector3D → Epoch → EclipseState) (min_rate : ℚ)
    (pool : List Candidate) : Option (List Candidate) :=
  if pool.length = 0 then none
  else eclipsePass eclipse min_rate pool (List.range (pool.length - 1))

/-- Solver::min_required (solver.rs): 1 for a time-only solution,
otherwise 4, reduced by 1 when a fixed altitude is configured. -/
def min_required (solution : PVTSolutionType) (cfg : Config) : Nat :=
  match solution with
  | .TimeOnly => 1
  | _ => if cfg.fixed_altitude.isSome then 4 - 1 else 4

/-- HashMap::insert on the per-satellite data map: replace an existing
binding of the key, otherwise add one. -/
def insertSv (m : List (Nat × PVTSVData)) (sv : Nat) (d : PVTSVData) :
    List (Nat × PVTSVData) :=
  if m.any fun p => p.1 = sv then
    m.map fun p => if p.1 = sv then (sv, d) else p
  else
    m ++ [(sv, d)]

/-- RF frequency dependent cable delay compensation of Solver::resolve:
for every configured internal delay whose frequency equals the
candidate's pseudorange frequency, add `delay * SPEED_OF_LIGHT` to the
residual, in list order. -/
noncomputable def applyIntDelays : List InternalDelay → ℚ → ℝ → ℝ
  | [], _, y => y
  | d :: rest, frequency, y =>
    applyIntDelays rest frequency
      (if d.frequency = frequency then
        y + (d.delay : ℝ) * ((SPEED_OF_LIGHT : ℚ) : ℝ)
      else y)

/-- One iteration of the observation-model loop of Solver::resolve:
select the candidate's pseudorange (panic on an empty list) and its
resolved state (`unwrap`, panic on None), compute the geometric range
ρ, the model correction term (clock correction and slant tropospheric
delay — the SPP stec block of the source only logs and is a no-op),
the residual with external-reference and internal cable delay
compensation, the geometry row, and the per-satellite data. -/
noncomputable def buildRow (tropo_delay : ℚ → ℚ → ℚ → ℚ) (cfg : Config)
    (x0 y0 z0 : ℚ) (tc : TropoComponents) (measured : Bool)
    (c : Candidate) : Option (ℝ × (ℝ × ℝ × ℝ × ℝ) × Nat × PVTSVData) :=
  match c.pseudoRangeFirst, c.state with
  | some pr, some state =>
    let elevation := state.elevation
    let prv := pr.value
    let frequency := pr.frequency
    let clock_corr := c.clock_corr
    let sv_x := state.sky_pos.1
    let sv_y := state.sky_pos.2.1
    let sv_z := state.sky_pos.2.2
    let rho : ℝ := Real.sqrt (((sv_x : ℝ) - (x0 : ℝ)) ^ 2
      + ((sv_y : ℝ) - (y0 : ℝ)) ^ 2 + ((sv_z : ℝ) - (z0 : ℝ)) ^ 2)
    let delay := tropo_delay elevation tc.zwd tc.zdd
    let models : ℝ :=
      -(clock_corr : ℝ) * ((SPEED_OF_LIGHT : ℚ) : ℝ) + (delay : ℝ)
    let sv_tropo := if measured then PVTSVTimeDelay.measured delay
      else PVTSVTimeDelay.modeled delay
    let yr0 : ℝ := (prv : ℝ) - rho - models
    let yr1 : ℝ := match cfg.externalref_delay with
      | some d => yr0 - (d : ℝ) * ((SPEED_OF_LIGHT : ℚ) : ℝ)
      | none => yr0
    let yr2 : ℝ := applyIntDelays cfg.int_delay frequency yr1
    let grow : ℝ × ℝ × ℝ × ℝ :=
      (((x0 : ℝ) - (sv_x : ℝ)) / rho, ((y0 : ℝ) - (sv_y : ℝ)) / rho,
        ((z0 : ℝ) - (sv_z : ℝ)) / rho, 1)
    some (yr2, grow, c.sv, ⟨sv_tropo⟩)
  | _, _ => none

/-- Observation-model loop of Solver::resolve over the surviving pool,
in order, propagating panics. -/
noncomputable def buildRows (tropo_delay : ℚ → ℚ → ℚ → ℚ) (cfg : Config)
    (x0 y0 z0 : ℚ) (tc : TropoComponents) (measured : Bool) :
    List Candidate → Option (List (ℝ × (ℝ × ℝ × ℝ × ℝ) × Nat × PVTSVData))
  | [] => some []
  | c :: rest =>
    match buildRow tropo_delay cfg x0 y0 z0 tc measured c with
    | none => none
    | some row =>
      match buildRows tropo_delay cfg x0 y0 z0 tc measured rest with
      | none => none
      | some rows => some (row :: rows)

/-- Solver::resolve (solver.rs), with the external collaborators as
parameters: the interpolator (as in the source), the eclipse-state
provider, `unb3_delay_components` (returning (zdd, zwd)) and the slant
`tropo_delay` mapping (tropo.rs is not in src/), and the least-squares
kernel `lsq` standing for `PVTSolution::new` (solutions.rs is not in
src/; modelled from the spec as a fallible solve over the accumulated
geometry rows, residuals and per-satellite data).  `stec` is accepted
but — as in the source SPP block, which only logs — never used. -/
noncomputable def resolve
    (interp : Epoch → Nat → Nat → Option InterpolationResult)
    (eclipse : Vector3D → Epoch → EclipseState)
    (unb3_delay_components : Epoch → ℚ → ℚ → ℚ × ℚ)
    (tropo_delay : ℚ → ℚ → ℚ → ℚ)
    (lsq : List (ℝ × ℝ × ℝ × ℝ) → List ℝ → List (Nat × PVTSVData) →
      Except SolverError PVTSolution)
    (mode : Mode) (cfg : Config) (apriori : AprioriPosition)
    (t : Epoch) (solution : PVTSolutionType) (pool : List Candidate)
    (meas_tropo_components : Option TropoComponents) (stec : Option ℚ) :
    RunResult :=
  let minReq := min_required solution cfg
  if pool.length < minReq then
    .err (.NotEnoughInputCandidates solution.code)
  else
    let x0 := apriori.ecef.1
    let y0 := apriori.ecef.2.1
    let z0 := apriori.ecef.2.2
    let lat_ddeg := apriori.geodetic.1
    let altitude_above_sea_m := apriori.geodetic.2.2
    let pool1 := elect_candidates t pool mode cfg
    match interpolationStage interp cfg pool1 with
    | none => .panic
    | some pool2 =>
      let afterElev := match cfg.min_sv_elev with
        | some min_elev => elevationFilter min_elev pool2
        | none => some pool2
      match afterElev with
      | none => .panic
      | some pool3 =>
        let afterEclipse := match cfg.min_sv_sunlight_rate with
          | some min_rate => eclipseFilter eclipse min_rate pool3
          | none => some pool3
        match afterEclipse with
        | none => .panic
        | some pool4 =>
          let nb_candidates := pool4.length
          if nb_candidates < minReq then
            .err .NotEnoughFittingCandidates
          else
            let tropo_components := match meas_tropo_components with
              | some components => components
              | none =>
                if cfg.modeling.tropo_delay then
                  let zw := unb3_delay_components t lat_ddeg
                    altitude_above_sea_m
                  ⟨zw.2, zw.1⟩
                else ⟨0, 0⟩
            match buildRows tropo_delay cfg x0 y0 z0 tropo_components
                meas_tropo_components.isSome pool4 with
            | none => .panic
            | some rows =>
              let yv := rows.map fun r => r.1
              let g := rows.map fun r => r.2.1
              let pvt_sv_data := rows.foldl
                (fun m r => insertSv m r.2.2.1 r.2.2.2) []
              match lsq g yv pvt_sv_data with
              | .error e => .err e
              | .ok pvt0 =>
                let pvt1 := match cfg.fixed_altitude with
                  | some alt =>
                    { pvt0 with
                      p := (pvt0.p.1, pvt0.p.2.1, (z0 : ℝ) - (alt : ℝ)),
                      v := (pvt0.v.1, pvt0.v.2.1, 0) }
                  | none => pvt0
                let pvt2 := match solution with
                  | .TimeOnly =>
                    { pvt1 with p := (0, 0, 0), hdop := 0, vdop := 0 }
                  | _ => pvt1
                .ok t pvt2

end Solver

/-- Elevation filtering as the spec words it: the output pool equals
the input pool with every element whose resolved elevation is below the
mask removed, every other element retained in its original relative
order.  Stated for comparison with `Solver.elevationFilter`, which
embeds the source loop. -/
def elevationFilterSpec (min_elev : ℚ) (pool : List Candidate) :
    List Candidate :=
  pool.filter fun c =>
    match c.state with
    | some state => decide ¬ (state.elevation < min_elev)
    | none => true

/-! Concrete fixtures used by witnesses and counterexamples. -/

/-- Configuration with every modeling flag off and no optional field set. -/
def cfgAllOff : Config :=
  ⟨⟨false, false, false, false, false, false⟩, 11, none, none, none, none, []⟩

/-- Configuration with a 10 degree elevation mask and everything else off. -/
def cfgElev10 : Config :=
  ⟨⟨false, false, false, false, false, false⟩, 11, some 10, none, none, none, []⟩

/-- Nominal pseudorange: 20000 km, light time about 67 ms. -/
def prNominal : PseudoRange := ⟨20000000, 1575420000⟩

/-- Candidate as Candidate::new leaves it, holding the nominal pseudorange. -/
def candNominal : Candidate :=
  ⟨1, ⟨0, 100⟩, none, none, (0, 0, 0), 0, none, [prNominal]⟩

/-- Candidate whose pseudorange implies a 2 second light time. -/
def candFar : Candidate :=
  ⟨3, ⟨0, 100⟩, none, none, (0, 0, 0), 0, none, [⟨599584916, 1575420000⟩]⟩

/-- Interpolated candidate with elevation 20. -/
def candHigh : Candidate :=
  ⟨1, ⟨0, 100⟩, some ⟨(1, 2, 3), 20, 0⟩, none, (0, 0, 0), 0, none, [prNominal]⟩

/-- Interpolated candidate with elevation 5. -/
def candLow : Candidate :=
  ⟨2, ⟨0, 100⟩, some ⟨(4, 5, 6), 5, 0⟩, none, (0, 0, 0), 0, none, [prNominal]⟩

/-- Interpolator that always fails. -/
def interpNone : Epoch → Nat → Nat → Option InterpolationResult :=
  fun _ _ _ => none

/-- Interpolator returning a fixed state with elevation 45. -/
def interpConst : Epoch → Nat → Nat → Option InterpolationResult :=
  fun _ _ _ => some ⟨(3, 4, 0), 45, 0⟩

/-- Eclipse provider reporting full sunlight. -/
def eclipseVis : Vector3D → Epoch → EclipseState := fun _ _ => .Visibilis

/-- Zenith component model returning zero components. -/
def unb3Zero : Epoch → ℚ → ℚ → ℚ × ℚ := fun _ _ _ => (0, 0)

/-- Slant mapping returning zero delay. -/
def tropoZero : ℚ → ℚ → ℚ → ℚ := fun _ _ _ => 0

/-- A solved PVT solution used as the constant lsq outcome. -/
def solRaw : PVTSolution := ⟨(7, 8, 9), (1, 1, 1), 0, 3, 4, []⟩

/-- Constant least-squares kernel returning solRaw. -/
def lsqConst : List (ℝ × ℝ × ℝ × ℝ) → List ℝ → List (Nat × PVTSVData) →
    Except SolverError PVTSolution := fun _ _ _ => .ok solRaw

/-- Apriori position at the origin. -/
def aprioriZero : AprioriPosition := ⟨(0, 0, 0), (0, 0, 0)⟩

/-- Configuration with only group-delay compensation enabled. -/
def cfgTgdOn : Config :=
  ⟨⟨false, true, false, false, false, false⟩, 11, none, none, none, none, []⟩

/-- Transmission epoch of candNominal under cfgAllOff. -/
def txEpochW : Epoch := ⟨0, 100 - 20000000 / SPEED_OF_LIGHT⟩

/-- State attached by interpConst. -/
def stW : InterpolationResult := ⟨(3, 4, 0), 45, 0⟩

/-- candNominal after the interpolation stage attaches the constant
state of interpConst. -/
def candInterp : Candidate :=
  ⟨1, ⟨0, 100⟩, some stW, none, (0, 0, 0), 0, none, [prNominal]⟩

/-- Configuration with an external reference delay of 1 s and two
internal cable delays, the first matching prNominal's frequency. -/
def cfgDelays : Config :=
  ⟨⟨false, false, false, false, false, false⟩, 11, none, none, none,
    some 1, [⟨1575420000, 7⟩, ⟨1227600000, 11⟩]⟩

/-- Nonzero zenith components. -/
def tcW : TropoComponents := ⟨1, 2⟩

/-- Constant slant mapping returning 9. -/
def tropoNine : ℚ → ℚ → ℚ → ℚ := fun _ _ _ => 9

/-- solRaw after the time-only post-processing. -/
def solZeroed : PVTSolution := ⟨(0, 0, 0), (1, 1, 1), 0, 0, 0, []⟩

/-! Claim theorems. -/

/-- C7: Candidate::new fails with NeedsAtLeastOnePseudoRange exactly on
an empty pseudorange list, succeeds exactly on a non-empty one, and
every constructed candidate holds at least one pseudorange. -/
theorem candidate_new_pseudorange_spec (sv : Nat) (t : Epoch)
    (cs : Vector3D) (cc : Duration) (snr : Option ℚ)
    (pr : List PseudoRange) :
    (Candidate.new sv t cs cc snr pr
        = .error .NeedsAtLeastOnePseudoRange ↔ pr = [])
    ∧ ((∃ c, Candidate.new sv t cs cc snr pr = .ok c) ↔ pr ≠ [])
    ∧ ∀ c, Candidate.new sv t cs cc snr pr = .ok c →
        c.pseudo_range ≠ [] := by
  rcases pr with _ | ⟨p, l⟩
  · simp [Candidate.new]
  · refine ⟨by simp [Candidate.new], by simp [Candidate.new], ?_⟩
    intro c hc
    simp only [Candidate.new, List.length_cons] at hc
    split at hc
    · cases hc
    · cases hc
      simp

/-- C7 witness: the empty list is rejected and a one-element list
yields a candidate holding that list. -/
theorem candidate_new_pseudorange_spec_witness :
    (Candidate.new 1 ⟨0, 100⟩ (0, 0, 0) 0 none []
        = .error .NeedsAtLeastOnePseudoRange)
    ∧ ({ sv := 1, t := ⟨0, 100⟩, state := none, tgd := none,
          clock_state := (0, 0, 0), clock_corr := 0, snr := none,
          pseudo_range := [prNominal] } : Candidate).pseudo_range ≠ [] :=
  ⟨(candidate_new_pseudorange_spec 1 ⟨0, 100⟩ (0, 0, 0) 0 none []).1.mpr
      rfl,
   (candidate_new_pseudorange_spec 1 ⟨0, 100⟩ (0, 0, 0) 0 none
      [prNominal]).2.2 _ rfl⟩

/-- Characterization of Candidate::transmission_time on a non-empty
pseudorange list: with dt the light time plus the enabled corrections,
the result is the corrected epoch when dt lies strictly in (0, 1) and a
panic otherwise. -/
theorem transmission_time_eq (c : Candidate) (cfg : Config)
    (pr : PseudoRange) (rest : List PseudoRange)
    (hpr : c.pseudo_range = pr :: rest) :
    c.transmission_time cfg =
      (if 0 < txDt c cfg pr ∧ txDt c cfg pr < 1
        then .ok ⟨c.t.ts, c.t.sec - txDt c cfg pr⟩ else .panic) := by
  have hhead : c.pseudoRangeFirst = some pr := by
    simp [Candidate.pseudoRangeFirst, hpr]
  simp only [Candidate.transmission_time, hhead, txDt]
  rcases hb : cfg.modeling.sv_clock_bias <;>
    rcases hg : cfg.modeling.sv_total_group_delay <;>
    rcases htgd : c.tgd with _ | tgd <;>
    simp only [hb, hg, htgd, Option.getD, Bool.false_eq_true, if_false,
      if_true, ite_true, ite_false] <;>
    ring_nf

/-- C2 counterexample: at a candidate whose single pseudorange implies
an elapsed time of exactly 2 seconds — outside (0, 1) — the function
panics (assertion failure) instead of returning a typed error. -/
theorem transmission_time_counterexample :
    Candidate.transmission_time candFar cfgAllOff = .panic
    ∧ (599584916 : ℚ) / SPEED_OF_LIGHT = 2 := by
  have h2 : (599584916 : ℚ) / SPEED_OF_LIGHT = 2 := by
    norm_num [SPEED_OF_LIGHT]
  refine ⟨?_, h2⟩
  rw [transmission_time_eq candFar cfgAllOff ⟨599584916, 1575420000⟩ []
    rfl]
  norm_num [txDt, candFar, cfgAllOff, h2]

/-- C2 (amended): Candidate::transmission_time never returns through
the typed error channel; it panics exactly when the elapsed time
between the sampling epoch and the computed transmission epoch does
not lie strictly between 0 and 1 seconds. -/
theorem transmission_time_panic_iff (c : Candidate) (cfg : Config)
    (pr : PseudoRange) (rest : List PseudoRange)
    (hpr : c.pseudo_range = pr :: rest) :
    (∀ e, c.transmission_time cfg ≠ .err e)
    ∧ (c.transmission_time cfg = .panic ↔
        ¬ (0 < txDt c cfg pr ∧ txDt c cfg pr < 1)) := by
  rw [transmission_time_eq c cfg pr rest hpr]
  constructor
  · intro e
    split <;> simp
  · split <;> rename_i hcond <;> simp [hcond]

/-- C2 amended-theorem witness at the 2 second candidate: the panic
branch is taken because the elapsed time violates the (0, 1) band. -/
theorem transmission_time_panic_iff_witness :
    Candidate.transmission_time candFar cfgAllOff
        ≠ .err SolverError.NotEnoughFittingCandidates
    ∧ (Candidate.transmission_time candFar cfgAllOff = .panic ↔
        ¬ (0 < txDt candFar cfgAllOff ⟨599584916, 1575420000⟩
          ∧ txDt candFar cfgAllOff ⟨599584916, 1575420000⟩ < 1)) :=
  ⟨(transmission_time_panic_iff candFar cfgAllOff ⟨599584916, 1575420000⟩
      [] rfl).1 _,
   (transmission_time_panic_iff candFar cfgAllOff ⟨599584916, 1575420000⟩
      [] rfl).2⟩

/-- C5: with clock-bias and group-delay compensation disabled, every
epoch returned by Candidate::transmission_time is exactly the sampling
epoch minus pseudorange value over speed of light, expressed in the
sampling epoch's timescale. -/
theorem transmission_time_no_compensation (c : Candidate) (cfg : Config)
    (pr : PseudoRange) (rest : List PseudoRange) (e : Epoch)
    (hpr : c.pseudo_range = pr :: rest)
    (hb : cfg.modeling.sv_clock_bias = false)
    (hg : cfg.modeling.sv_total_group_delay = false)
    (hok : c.transmission_time cfg = .ok e) :
    e.ts = c.t.ts ∧ e.sec = c.t.sec - pr.value / SPEED_OF_LIGHT := by
  rw [transmission_time_eq c cfg pr rest hpr] at hok
  have hdt : txDt c cfg pr = pr.value / SPEED_OF_LIGHT := by
    simp [txDt, hb, hg]
  rw [hdt] at hok
  split at hok
  · injection hok with h
    subst h
    exact ⟨rfl, rfl⟩
  · cases hok

/-- C5 witness: the nominal candidate under the all-off configuration
resolves to exactly the sampling epoch minus light time, in the
sampling timescale. -/
theorem transmission_time_no_compensation_witness :
    Candidate.transmission_time candNominal cfgAllOff = .ok txEpochW
    ∧ txEpochW.ts = candNominal.t.ts
    ∧ txEpochW.sec = candNominal.t.sec
        - prNominal.value / SPEED_OF_LIGHT := by
  have hok : Candidate.transmission_time candNominal cfgAllOff
      = .ok txEpochW := by
    rw [transmission_time_eq candNominal cfgAllOff prNominal [] rfl]
    have hdt : txDt candNominal cfgAllOff prNominal
        = 20000000 / SPEED_OF_LIGHT := by
      simp [txDt, candNominal, prNominal, cfgAllOff]
    rw [hdt, if_pos]
    · rfl
    · constructor <;> norm_num [SPEED_OF_LIGHT]
  exact ⟨hok,
    transmission_time_no_compensation candNominal cfgAllOff prNominal []
      txEpochW rfl rfl rfl hok⟩

/-- C1 (code defect): on a two-candidate pool whose second element sits
below the 10 degree mask, the source elevation filter visits only index
0 (the `0..len - 1` bound) and returns the pool unchanged, while the
spec's exhaustive filtering removes the second candidate. -/
theorem elevation_filter_divergence :
    Solver.elevationFilter 10 [candHigh, candLow]
        = some [candHigh, candLow]
    ∧ elevationFilterSpec 10 [candHigh, candLow] = [candHigh]
    ∧ (candLow.state.map fun st => st.elevation) = some 5 := by
  refine ⟨by decide, by decide, by decide⟩

/-- Elements of swap_remove come from the original list. -/
theorem swapRemove_mem {α : Type} (l : List α) (i : Nat) (x : α)
    (hx : x ∈ Solver.swapRemove l i) : x ∈ l := by
  unfold Solver.swapRemove at hx
  cases hl : l.getLast? with
  | none => rw [hl] at hx; exact hx
  | some last =>
    rw [hl] at hx
    have hlast : last ∈ l := by
      rcases l with _ | ⟨a, as⟩
      · cases hl
      · rw [List.getLast?_eq_getLast (a :: as) (by simp)] at hl
        rw [← Option.some_inj.mp hl]
        exact List.getLast_mem _
    have hx2 : x ∈ l.set i last := List.dropLast_subset _ hx
    rcases List.mem_or_eq_of_mem_set hx2 with h | h
    · exact h
    · rw [h]
      exact hlast

/-- Survivors of the elevation loop body come from the entry pool. -/
theorem elevationPass_mem (m : ℚ) (idxs : List Nat)
    (pool out : List Candidate)
    (h : Solver.elevationPass m pool idxs = some out) :
    ∀ d ∈ out, d ∈ pool := by
  induction idxs generalizing pool with
  | nil =>
    unfold Solver.elevationPass at h
    cases h
    exact fun d hd => hd
  | cons i rest ih =>
    unfold Solver.elevationPass at h
    split at h
    · split at h
      · split at h
        · exact fun d hd => swapRemove_mem pool i d (ih _ h d hd)
        · exact ih _ h
      · exact ih _ h
    · cases h

/-- Survivors of the eclipse loop body come from the entry pool. -/
theorem eclipsePass_mem (ecl : Vector3D → Epoch → EclipseState) (r : ℚ)
    (idxs : List Nat) (pool out : List Candidate)
    (h : Solver.eclipsePass ecl r pool idxs = some out) :
    ∀ d ∈ out, d ∈ pool := by
  induction idxs generalizing pool with
  | nil =>
    unfold Solver.eclipsePass at h
    cases h
    exact fun d hd => hd
  | cons i rest ih =>
    unfold Solver.eclipsePass at h
    split at h
    · split at h
      · cases h
      · dsimp only at h
        split at h
        · exact fun d hd => swapRemove_mem pool i d (ih _ h d hd)
        · exact ih _ h
    · cases h

/-- Candidates leaving the interpolation stage are input candidates
with only their state replaced; in particular the group delay of every
output candidate is the group delay of some input candidate. -/
theorem interpolationStage_tgd
    (interp : Epoch → Nat → Nat → Option InterpolationResult)
    (cfg : Config) (pool out : List Candidate)
    (h : Solver.interpolationStage interp cfg pool = some out) :
    ∀ d ∈ out, ∃ c0 ∈ pool, d.tgd = c0.tgd := by
  induction pool generalizing out with
  | nil =>
    unfold Solver.interpolationStage at h
    cases h
    intro d hd
    cases hd
  | cons c rest ih =>
    unfold Solver.interpolationStage at h
    cases htx : c.transmission_time cfg with
    | panic =>
      rw [htx] at h
      cases h
    | err e =>
      rw [htx] at h
      intro d hd
      rcases ih _ h d hd with ⟨c0, hc0, heq⟩
      exact ⟨c0, List.mem_cons_of_mem _ hc0, heq⟩
    | ok t_tx =>
      rw [htx] at h
      dsimp only at h
      cases hint : interp t_tx c.sv cfg.interp_order with
      | none =>
        rw [hint] at h
        intro d hd
        rcases ih _ h d hd with ⟨c0, hc0, heq⟩
        exact ⟨c0, List.mem_cons_of_mem _ hc0, heq⟩
      | some interpolated =>
        rw [hint] at h
        cases hrest : Solver.interpolationStage interp cfg rest with
        | none =>
          rw [hrest] at h
          cases h
        | some rest2 =>
          rw [hrest] at h
          cases h
          intro d hd
          rcases List.mem_cons.mp hd with hd | hd
          · exact ⟨c, List.mem_cons_self _ _, by rw [hd]⟩
          · rcases ih _ hrest d hd with ⟨c0, hc0, heq⟩
            exact ⟨c0, List.mem_cons_of_mem _ hc0, heq⟩

/-- C10: candidates built by Candidate::new carry no group delay; the
pipeline never sets one (the interpolation stage only replaces the
state and the two filters only keep existing elements); and on such a
candidate transmission_time is unchanged by enabling group-delay
compensation, i.e. no group delay is ever subtracted. -/
theorem constructed_candidate_tgd_none :
    (∀ sv t cs cc snr pr c, Candidate.new sv t cs cc snr pr = .ok c →
      c.tgd = none
      ∧ ∀ cfg : Config, c.transmission_time cfg
          = c.transmission_time
              { cfg with modeling :=
                  { cfg.modeling with sv_total_group_delay := false } })
    ∧ (∀ interp cfg pool out,
        Solver.interpolationStage interp cfg pool = some out →
        ∀ d ∈ out, ∃ c0 ∈ pool, d.tgd = c0.tgd)
    ∧ (∀ m pool out, Solver.elevationFilter m pool = some out →
        ∀ d ∈ out, d ∈ pool)
    ∧ (∀ ecl r pool out, Solver.eclipseFilter ecl r pool = some out →
        ∀ d ∈ out, d ∈ pool) := by
  refine ⟨?_, interpolationStage_tgd, ?_, ?_⟩
  · intro sv t cs cc snr pr c hc
    have htgd : c.tgd = none := by
      unfold Candidate.new at hc
      split at hc
      · cases hc
      · cases hc
        rfl
    refine ⟨htgd, ?_⟩
    intro cfg
    simp [Candidate.transmission_time, htgd]
  · intro m pool out h
    unfold Solver.elevationFilter at h
    split at h
    · cases h
    · exact elevationPass_mem m _ pool out h
  · intro ecl r pool out h
    unfold Solver.eclipseFilter at h
    split at h
    · cases h
    · exact eclipsePass_mem ecl r _ pool out h

/-- C10 witness: Candidate::new yields candNominal with no group
delay, and enabling group-delay compensation does not change its
transmission time. -/
theorem constructed_candidate_tgd_none_witness :
    candNominal.tgd = none
    ∧ candNominal.transmission_time cfgTgdOn
        = candNominal.transmission_time cfgAllOff := by
  have h := constructed_candidate_tgd_none.1 1 ⟨0, 100⟩ (0, 0, 0) 0 none
    [prNominal] candNominal rfl
  exact ⟨h.1, h.2 cfgTgdOn⟩

/-- C8: in SPP mode the result of Solver::resolve does not depend on
the supplied slant ionospheric estimate, present or absent: the stec
argument is accepted but applied as a no-op. -/
theorem resolve_ignores_stec
    (interp : Epoch → Nat → Nat → Option InterpolationResult)
    (eclipse : Vector3D → Epoch → EclipseState)
    (unb3 : Epoch → ℚ → ℚ → ℚ × ℚ) (tropoD : ℚ → ℚ → ℚ → ℚ)
    (lsq : List (ℝ × ℝ × ℝ × ℝ) → List ℝ → List (Nat × PVTSVData) →
      Except SolverError PVTSolution)
    (cfg : Config) (apriori : AprioriPosition) (t : Epoch)
    (solution : PVTSolutionType) (pool : List Candidate)
    (meas : Option TropoComponents) (stec1 stec2 : Option ℚ) :
    Solver.resolve interp eclipse unb3 tropoD lsq .SPP cfg apriori t
        solution pool meas stec1
      = Solver.resolve interp eclipse unb3 tropoD lsq .SPP cfg apriori t
        solution pool meas stec2 := rfl

/-- C3: Solver::resolve fails with NotEnoughInputCandidates naming the
requested solution type exactly when the pool is smaller than the
minimum required; the equivalence holds for every interpolator, eclipse
provider and least-squares kernel (the kernel reporting numerical
failure as MatrixInversionError, as the spec states), so the failure is
decided before any election, filtering or model building; and the
minimum required is 1 for time-only, 4 for a full fix, 3 for a full fix
with a fixed altitude override. -/
theorem resolve_insufficient_input
    (interp : Epoch → Nat → Nat → Option InterpolationResult)
    (eclipse : Vector3D → Epoch → EclipseState)
    (unb3 : Epoch → ℚ → ℚ → ℚ × ℚ) (tropoD : ℚ → ℚ → ℚ → ℚ)
    (lsq : List (ℝ × ℝ × ℝ × ℝ) → List ℝ → List (Nat × PVTSVData) →
      Except SolverError PVTSolution)
    (mode : Mode) (cfg : Config) (apriori : AprioriPosition) (t : Epoch)
    (solution : PVTSolutionType) (pool : List Candidate)
    (meas : Option TropoComponents) (stec : Option ℚ)
    (hlsq : ∀ g yv dat e, lsq g yv dat = .error e →
      e = .MatrixInversionError) :
    (Solver.resolve interp eclipse unb3 tropoD lsq mode cfg apriori t
        solution pool meas stec
        = .err (.NotEnoughInputCandidates solution.code)
      ↔ pool.length < Solver.min_required solution cfg)
    ∧ Solver.min_required .TimeOnly cfg = 1
    ∧ Solver.min_required .PositionVelocityTime cfg
        = if cfg.fixed_altitude.isSome then 3 else 4 := by
  refine ⟨⟨?_, ?_⟩, rfl, ?_⟩
  · intro h
    by_contra hlt
    unfold Solver.resolve at h
    rw [if_neg hlt] at h
    dsimp only at h
    split at h
    · cases h
    · split at h
      · cases h
      · split at h
        · cases h
        · split at h
          · simp at h
          · split at h
            · cases h
            · split at h
              · rename_i e heq
                cases h
                exact absurd (hlsq _ _ _ _ heq) (by simp)
              · cases h
  · intro h
    unfold Solver.resolve
    rw [if_pos h]
  · cases hfa : cfg.fixed_altitude <;> simp [Solver.min_required, hfa]

/-- C3 witness: the empty pool is rejected for a time-only request,
whose minimum is 1. -/
theorem resolve_insufficient_input_witness :
    Solver.resolve interpNone eclipseVis unb3Zero tropoZero lsqConst
        Mode.SPP cfgAllOff aprioriZero ⟨0, 100⟩ .TimeOnly [] none none
      = .err (.NotEnoughInputCandidates PVTSolutionType.TimeOnly.code)
    ∧ Solver.min_required .TimeOnly cfgAllOff = 1 := by
  have h := resolve_insufficient_input interpNone eclipseVis unb3Zero
    tropoZero lsqConst Mode.SPP cfgAllOff aprioriZero ⟨0, 100⟩ .TimeOnly
    [] none none
    (by intro g yv dat e he; simp [lsqConst] at he)
  exact ⟨h.1.mpr (by decide), h.2.1⟩

/-- When every interpolator query fails and no transmission time
panics, the interpolation stage empties the pool. -/
theorem interpolationStage_all_fail
    (interp : Epoch → Nat → Nat → Option InterpolationResult)
    (cfg : Config) (l : List Candidate)
    (hinterp : ∀ e sv o, interp e sv o = none)
    (htx : ∀ c ∈ l, c.transmission_time cfg ≠ .panic) :
    Solver.interpolationStage interp cfg l = some [] := by
  induction l with
  | nil => rfl
  | cons c rest ih =>
    have hrest := ih fun d hd => htx d (List.mem_cons_of_mem _ hd)
    unfold Solver.interpolationStage
    cases htxc : c.transmission_time cfg with
    | panic => exact absurd htxc (htx c (List.mem_cons_self _ _))
    | err e => exact hrest
    | ok t_tx =>
      dsimp only
      rw [hinterp t_tx c.sv cfg.interp_order]
      exact hrest

/-- C9: with an elevation mask or a minimum sunlight rate configured,
if the pool passes the input-size guard but interpolation fails for
every elected candidate (no transmission time panicking first), the
filter pass begins on an empty pool and the `pool.len() - 1` loop bound
underflows: resolve panics instead of returning the
NotEnoughFittingCandidates error. -/
theorem resolve_empty_filter_panics
    (interp : Epoch → Nat → Nat → Option InterpolationResult)
    (eclipse : Vector3D → Epoch → EclipseState)
    (unb3 : Epoch → ℚ → ℚ → ℚ × ℚ) (tropoD : ℚ → ℚ → ℚ → ℚ)
    (lsq : List (ℝ × ℝ × ℝ × ℝ) → List ℝ → List (Nat × PVTSVData) →
      Except SolverError PVTSolution)
    (mode : Mode) (cfg : Config) (apriori : AprioriPosition) (t : Epoch)
    (solution : PVTSolutionType) (pool : List Candidate)
    (meas : Option TropoComponents) (stec : Option ℚ)
    (hfilter : cfg.min_sv_elev.isSome ∨ cfg.min_sv_sunlight_rate.isSome)
    (hmin : Solver.min_required solution cfg ≤ pool.length)
    (hinterp : ∀ e sv o, interp e sv o = none)
    (htx : ∀ c ∈ Solver.elect_candidates t pool mode cfg,
      c.transmission_time cfg ≠ .panic) :
    Solver.resolve interp eclipse unb3 tropoD lsq mode cfg apriori t
        solution pool meas stec = .panic
    ∧ Solver.resolve interp eclipse unb3 tropoD lsq mode cfg apriori t
        solution pool meas stec ≠ .err .NotEnoughFittingCandidates := by
  have hstage := interpolationStage_all_fail interp cfg _ hinterp htx
  have hres : Solver.resolve interp eclipse unb3 tropoD lsq mode cfg
      apriori t solution pool meas stec = .panic := by
    unfold Solver.resolve
    rw [if_neg (Nat.not_lt.mpr hmin)]
    dsimp only
    rw [hstage]
    rcases hfilter with hf | hf
    · rcases Option.isSome_iff_exists.mp hf with ⟨m, hm⟩
      rw [hm]
      rfl
    · cases he : cfg.min_sv_elev with
      | some m => rfl
      | none =>
        rcases Option.isSome_iff_exists.mp hf with ⟨r, hr⟩
        rw [hr]
        rfl
  refine ⟨hres, ?_⟩
  rw [hres]
  simp

/-- C9 witness: one nominal candidate, a 10 degree mask and an
always-failing interpolator drive resolve into the panic. -/
theorem resolve_empty_filter_panics_witness :
    Solver.resolve interpNone eclipseVis unb3Zero tropoZero lsqConst
        Mode.SPP cfgElev10 aprioriZero ⟨0, 100⟩ .TimeOnly [candNominal]
        none none = .panic := by
  have htx : ∀ c ∈ Solver.elect_candidates ⟨0, 100⟩ [candNominal]
      Mode.SPP cfgElev10, c.transmission_time cfgElev10 ≠ .panic := by
    intro c hc
    have hcand : c = candNominal := by
      simpa [Solver.elect_candidates] using hc
    subst hcand
    intro hpanic
    rw [transmission_time_eq candNominal cfgElev10 prNominal [] rfl,
      if_pos] at hpanic
    · cases hpanic
    · constructor <;>
        norm_num [txDt, candNominal, prNominal, cfgElev10, SPEED_OF_LIGHT]
  exact (resolve_empty_filter_panics interpNone eclipseVis unb3Zero
    tropoZero lsqConst Mode.SPP cfgElev10 aprioriZero ⟨0, 100⟩ .TimeOnly
    [candNominal] none none (Or.inl (by decide)) (by decide)
    (fun e sv o => rfl) htx).1

/-- Transmission time of the nominal candidate under the all-off
configuration. -/
theorem candNominal_tx_ok :
    Candidate.transmission_time candNominal cfgAllOff = .ok txEpochW := by
  rw [transmission_time_eq candNominal cfgAllOff prNominal [] rfl,
    if_pos]
  · have hdt : txDt candNominal cfgAllOff prNominal
        = 20000000 / SPEED_OF_LIGHT := by
      simp [txDt, candNominal, prNominal, cfgAllOff]
    rw [hdt]
    rfl
  · constructor <;>
      norm_num [txDt, candNominal, prNominal, cfgAllOff, SPEED_OF_LIGHT]

/-- The interpolation stage on the singleton nominal pool under the
constant interpolator attaches the constant state. -/
theorem interp_stage_candNominal :
    Solver.interpolationStage interpConst cfgAllOff [candNominal]
      = some [candInterp] := by
  unfold Solver.interpolationStage
  rw [candNominal_tx_ok]
  rfl

/-- C6: every successful time-only call of Solver::resolve returns a
zero position vector and zero hdop and vdop, regardless of the input
geometry, the providers and the least-squares outcome. -/
theorem resolve_time_only_zero_position
    (interp : Epoch → Nat → Nat → Option InterpolationResult)
    (eclipse : Vector3D → Epoch → EclipseState)
    (unb3 : Epoch → ℚ → ℚ → ℚ × ℚ) (tropoD : ℚ → ℚ → ℚ → ℚ)
    (lsq : List (ℝ × ℝ × ℝ × ℝ) → List ℝ → List (Nat × PVTSVData) →
      Except SolverError PVTSolution)
    (mode : Mode) (cfg : Config) (apriori : AprioriPosition) (t : Epoch)
    (pool : List Candidate) (meas : Option TropoComponents)
    (stec : Option ℚ) (t2 : Epoch) (sol : PVTSolution)
    (h : Solver.resolve interp eclipse unb3 tropoD lsq mode cfg apriori t
        .TimeOnly pool meas stec = .ok t2 sol) :
    sol.p = (0, 0, 0) ∧ sol.hdop = 0 ∧ sol.vdop = 0 := by
  unfold Solver.resolve at h
  dsimp only at h
  repeat' split at h
  all_goals cases h
  all_goals exact ⟨rfl, rfl, rfl⟩

/-- C6 witness: a concrete successful time-only run whose raw
least-squares solution has nonzero position and DOPs comes back with
them zeroed. -/
theorem resolve_time_only_zero_position_witness :
    Solver.resolve interpConst eclipseVis unb3Zero tropoZero lsqConst
        Mode.SPP cfgAllOff aprioriZero ⟨0, 100⟩ .TimeOnly [candNominal]
        none none = .ok ⟨0, 100⟩ solZeroed
    ∧ solZeroed.p = (0, 0, 0) ∧ solZeroed.hdop = 0
    ∧ solZeroed.vdop = 0 := by
  have hres : Solver.resolve interpConst eclipseVis unb3Zero tropoZero
      lsqConst Mode.SPP cfgAllOff aprioriZero ⟨0, 100⟩ .TimeOnly
      [candNominal] none none = .ok ⟨0, 100⟩ solZeroed := by
    unfold Solver.resolve
    rw [if_neg (by decide)]
    dsimp only
    have helect : Solver.elect_candidates ⟨0, 100⟩ [candNominal]
        Mode.SPP cfgAllOff = [candNominal] := rfl
    rw [helect, interp_stage_candNominal]
    rfl
  exact ⟨hres,
    resolve_time_only_zero_position interpConst eclipseVis unb3Zero
      tropoZero lsqConst Mode.SPP cfgAllOff aprioriZero ⟨0, 100⟩
      [candNominal] none none ⟨0, 100⟩ solZeroed hres⟩

/-- The cable-delay loop adds `delay * c` for exactly the entries whose
frequency equals the candidate's pseudorange frequency. -/
theorem applyIntDelays_eq_add_sum (l : List InternalDelay) (f : ℚ)
    (y : ℝ) :
    Solver.applyIntDelays l f y
      = y + ((l.filter fun d => d.frequency = f).map
          fun d => (d.delay : ℝ) * ((SPEED_OF_LIGHT : ℚ) : ℝ)).sum := by
  induction l generalizing y with
  | nil => simp [Solver.applyIntDelays]
  | cons d rest ih =>
    by_cases hd : d.frequency = f <;>
      simp [Solver.applyIntDelays, hd, ih, List.filter_cons] <;> ring

/-- C4: for a surviving candidate (resolved state, non-empty
pseudorange list) the observation-model row built inside the loop of
Solver::resolve is exactly: residual = pseudorange value − geometric
range − (−clock correction · c + slant tropospheric delay), minus the
configured external reference delay converted to meters, plus every
configured internal cable delay of the candidate's pseudorange
frequency converted to meters; the geometry row is
(apriori − satellite)/ρ in x, y, z and the constant 1, with ρ the
Euclidean distance between the apriori ECEF position and the resolved
sky position. -/
theorem buildRow_observation_model (tropoD : ℚ → ℚ → ℚ → ℚ)
    (cfg : Config) (x0 y0 z0 : ℚ) (tc : TropoComponents)
    (measured : Bool) (c : Candidate) (pr : PseudoRange)
    (rest : List PseudoRange) (st : InterpolationResult)
    (hpr : c.pseudo_range = pr :: rest) (hst : c.state = some st) :
    Solver.buildRow tropoD cfg x0 y0 z0 tc measured c
      = some (
          (pr.value : ℝ)
            - Real.sqrt (((st.sky_pos.1 : ℝ) - (x0 : ℝ)) ^ 2
                + ((st.sky_pos.2.1 : ℝ) - (y0 : ℝ)) ^ 2
                + ((st.sky_pos.2.2 : ℝ) - (z0 : ℝ)) ^ 2)
            - (-(c.clock_corr : ℝ) * ((SPEED_OF_LIGHT : ℚ) : ℝ)
                + (tropoD st.elevation tc.zwd tc.zdd : ℝ))
            - (match cfg.externalref_delay with
                | some d => (d : ℝ) * ((SPEED_OF_LIGHT : ℚ) : ℝ)
                | none => 0)
            + ((cfg.int_delay.filter
                  fun d => d.frequency = pr.frequency).map
                fun d =>
                  (d.delay : ℝ) * ((SPEED_OF_LIGHT : ℚ) : ℝ)).sum,
          (((x0 : ℝ) - (st.sky_pos.1 : ℝ))
              / Real.sqrt (((st.sky_pos.1 : ℝ) - (x0 : ℝ)) ^ 2
                + ((st.sky_pos.2.1 : ℝ) - (y0 : ℝ)) ^ 2
                + ((st.sky_pos.2.2 : ℝ) - (z0 : ℝ)) ^ 2),
            ((y0 : ℝ) - (st.sky_pos.2.1 : ℝ))
              / Real.sqrt (((st.sky_pos.1 : ℝ) - (x0 : ℝ)) ^ 2
                + ((st.sky_pos.2.1 : ℝ) - (y0 : ℝ)) ^ 2
                + ((st.sky_pos.2.2 : ℝ) - (z0 : ℝ)) ^ 2),
            ((z0 : ℝ) - (st.sky_pos.2.2 : ℝ))
              / Real.sqrt (((st.sky_pos.1 : ℝ) - (x0 : ℝ)) ^ 2
                + ((st.sky_pos.2.1 : ℝ) - (y0 : ℝ)) ^ 2
                + ((st.sky_pos.2.2 : ℝ) - (z0 : ℝ)) ^ 2),
            1),
          c.sv,
          ⟨if measured
            then PVTSVTimeDelay.measured (tropoD st.elevation tc.zwd
              tc.zdd)
            else PVTSVTimeDelay.modeled (tropoD st.elevation tc.zwd
              tc.zdd)⟩) := by
  have hhead : c.pseudoRangeFirst = some pr := by
    simp [Candidate.pseudoRangeFirst, hpr]
  simp only [Solver.buildRow, hhead, hst]
  rw [applyIntDelays_eq_add_sum]
  cases he : cfg.externalref_delay with
  | none =>
    simp only [Option.some.injEq, Prod.mk.injEq]
    exact ⟨by ring, trivial⟩
  | some d =>
    simp only [Option.some.injEq, Prod.mk.injEq]

/-- C4 witness: the row of candInterp under a configuration with an
external reference delay and one matching cable delay. -/
theorem buildRow_observation_model_witness :
    Solver.buildRow tropoNine cfgDelays 0 0 0 tcW false candInterp
      = some (
          (prNominal.value : ℝ)
            - Real.sqrt (((stW.sky_pos.1 : ℝ) - ((0 : ℚ) : ℝ)) ^ 2
                + ((stW.sky_pos.2.1 : ℝ) - ((0 : ℚ) : ℝ)) ^ 2
                + ((stW.sky_pos.2.2 : ℝ) - ((0 : ℚ) : ℝ)) ^ 2)
            - (-(candInterp.clock_corr : ℝ)
                  * ((SPEED_OF_LIGHT : ℚ) : ℝ)
                + (tropoNine stW.elevation tcW.zwd tcW.zdd : ℝ))
            - (match cfgDelays.externalref_delay with
                | some d => (d : ℝ) * ((SPEED_OF_LIGHT : ℚ) : ℝ)
                | none => 0)
            + ((cfgDelays.int_delay.filter
                  fun d => d.frequency = prNominal.frequency).map
                fun d =>
                  (d.delay : ℝ) * ((SPEED_OF_LIGHT : ℚ) : ℝ)).sum,
          ((((0 : ℚ) : ℝ) - (stW.sky_pos.1 : ℝ))
              / Real.sqrt (((stW.sky_pos.1 : ℝ) - ((0 : ℚ) : ℝ)) ^ 2
                + ((stW.sky_pos.2.1 : ℝ) - ((0 : ℚ) : ℝ)) ^ 2
                + ((stW.sky_pos.2.2 : ℝ) - ((0 : ℚ) : ℝ)) ^ 2),
            (((0 : ℚ) : ℝ) - (stW.sky_pos.2.1 : ℝ))
              / Real.sqrt (((stW.sky_pos.1 : ℝ) - ((0 : ℚ) : ℝ)) ^ 2
                + ((stW.sky_pos.2.1 : ℝ) - ((0 : ℚ) : ℝ)) ^ 2
                + ((stW.sky_pos.2.2 : ℝ) - ((0 : ℚ) : ℝ)) ^ 2),
            (((0 : ℚ) : ℝ) - (stW.sky_pos.2.2 : ℝ))
              / Real.sqrt (((stW.sky_pos.1 : ℝ) - ((0 : ℚ) : ℝ)) ^ 2
                + ((stW.sky_pos.2.1 : ℝ) - ((0 : ℚ) : ℝ)) ^ 2
                + ((stW.sky_pos.2.2 : ℝ) - ((0 : ℚ) : ℝ)) ^ 2),
            1),
          candInterp.sv,
          ⟨PVTSVTimeDelay.modeled
            (tropoNine stW.elevation tcW.zwd tcW.zdd)⟩) :=
  buildRow_observation_model tropoNine cfgDelays 0 0 0 tcW false
    candInterp prNominal [] stW rfl rfl

end GnssRtk
